import Mathlib

/-!
Verification of the live-surface synchronization subsystem of the
canvas-browser application, embedded from src/shapes/BrowserShape.tsx.

The persisted shape props, the capture sample returned by the periodic
state query, and each event handler of the component are translated into
executable Lean definitions; the theorems below settle the behavioural
claims about delta-gated polling, navigation commits, restoration, and
the interaction-mode machinery.
-/

namespace CanvasBrowser

/-- The persisted props of a browser shape (BrowserShape.tsx lines 12-22):
width, height, current url, last captured scroll position, and the
optional serialized DOM snapshot (field innerHTML, absent or empty when
no snapshot has been captured). -/
structure BrowserProps where
  w : Int
  h : Int
  url : String
  scrollX : Int
  scrollY : Int
  innerHTML : Option String
  deriving Repr, DecidableEq

/-- The result of one asynchronous state query against the webview
(BrowserShape.tsx lines 308-314): scroll position, serialized document,
and the current location. -/
structure CaptureSample where
  scrollX : Int
  scrollY : Int
  html : String
  currentUrl : String
  deriving Repr, DecidableEq

/-- The default props of a freshly created browser shape
(getDefaultProps, lines 71-80). -/
def getDefaultProps : BrowserProps :=
  { w := 400, h := 800, url := "https://www.google.com"
    scrollX := 0, scrollY := 0, innerHTML := some "" }

/-- The delta test of the capture scheduler (lines 316-319): the sample
differs from the committed record when the scroll position or the
current url changed; the serialized html is not consulted. -/
def needsUpdate (props : BrowserProps) (s : CaptureSample) : Bool :=
  (s.scrollX != props.scrollX) || (s.scrollY != props.scrollY) ||
    (s.currentUrl != props.url)

/-- One resolved tick of saveWebviewState (lines 306-340): when the
delta test fires against the props value the callback closure holds,
commit scroll, serialized html and url over those props (width and
height are explicitly preserved); otherwise commit nothing. -/
def saveWebviewState (props : BrowserProps) (s : CaptureSample) :
    Option BrowserProps :=
  if needsUpdate props s then
    some { props with
            scrollX := s.scrollX, scrollY := s.scrollY,
            innerHTML := some s.html, url := s.currentUrl }
  else
    none

/-- A sequence of resolved scheduler ticks. The interval callback is
created once inside the mount effect, whose dependency list is only
isReady and the shape id (line 370), so every tick reads the same
frozen mount-render props (the baseline): the delta test and the
committed values both use the baseline, never the record as currently
stored. The record argument tracks what the store holds, and the
second component counts the editor.updateShape calls. -/
def runTicksStale (baseline : BrowserProps) :
    BrowserProps → List CaptureSample → BrowserProps × Nat
  | record, [] => (record, 0)
  | record, s :: rest =>
    match saveWebviewState baseline s with
    | some written =>
      let r := runTicksStale baseline written rest
      (r.1, r.2 + 1)
    | none => runTicksStale baseline record rest

/-- Boolean prefix test on character lists. -/
def startsWithChars : List Char → List Char → Bool
  | [], _ => true
  | _ :: _, [] => false
  | p :: ps, c :: cs => (p == c) && startsWithChars ps cs

/-- Case-insensitive test whether a submitted url already carries an
http or https scheme, the regex test of handleUrlSubmit (line 104):
the string starts, ignoring letter case, with the characters of
http:// or https://. -/
def hasHttpScheme (u : String) : Bool :=
  startsWithChars "http://".toList (u.toList.map Char.toLower) ||
    startsWithChars "https://".toList (u.toList.map Char.toLower)

/-- Url normalization of handleUrlSubmit (lines 102-107): prepend the
https scheme when no http or https scheme is present, otherwise keep
the string unchanged. -/
def normalizeUrl (u : String) : String :=
  if hasHttpScheme u then u else "https://" ++ u

/-- The record update of handleUrlSubmit (lines 109-123): commit the
normalized url with the scroll position reset to zero; all other props,
including the stored snapshot, are spread through unchanged. -/
def handleUrlSubmit (props : BrowserProps) (input : String) : BrowserProps :=
  { props with url := normalizeUrl input, scrollX := 0, scrollY := 0 }

/-- The did-navigate handler (lines 266-283): when the event carries a
nonempty url, commit that url to the record, preserving width, height,
scroll position and snapshot through the props spread; an event with an
empty (falsy) url commits nothing. -/
def didNavigate (props : BrowserProps) (eventUrl : String) :
    Option BrowserProps :=
  if eventUrl = "" then none
  else some { props with url := eventUrl }

/-- The did-navigate-in-page handler (lines 286-303). The listener is
registered once inside the mount effect (deps line 370), so the props
it spreads into the update are the frozen mount-render props (the
baseline), not the record as currently stored: when the event carries a
nonempty url it commits the baseline with only the url replaced,
overwriting whatever scroll position or snapshot later writes put on
the record; an event with an empty (falsy) url commits nothing. -/
def didNavigateInPage (baseline : BrowserProps) (eventUrl : String) :
    Option BrowserProps :=
  if eventUrl = "" then none
  else some { baseline with url := eventUrl }

end CanvasBrowser

namespace CanvasBrowser

/-! Restoration engine: the script injected by the did-finish-load
handler (lines 200-260). The live document is modelled by the head-level
element lists the script queries (script, link and style tags, each
element by its serialized outerHTML form; the three selectors match
disjoint tag sets) together with the window scroll position. -/

/-- The head-level element lists and scroll position of the live
document as observed by the restoration script. -/
structure DomDoc where
  scripts : List String
  links : List String
  styles : List String
  scroll : Int × Int
  deriving Repr, DecidableEq

/-- The stored snapshot parsed by DOMParser into the same three
head-level element lists (lines 217-222). -/
structure ParsedSnapshot where
  scripts : List String
  links : List String
  styles : List String
  deriving Repr, DecidableEq

/-- addMissingElements (lines 220-236): every stored element that has no
exact serialized-form match among the elements of the live document as
queried before any insertion is appended to the head (the inner forEach
computes exactly membership by outerHTML equality). -/
def addMissingElements (current stored : List String) : List String :=
  current ++ stored.filter (fun s => !(decide (s ∈ current)))

/-- The body of the injected restoration script on its successful path
(lines 217-244): merge the missing scripts, links and styles, then
restore the scroll position as the final step. -/
def restoreMerge (snap : ParsedSnapshot) (sx sy : Int) (doc : DomDoc) :
    DomDoc :=
  { scripts := addMissingElements doc.scripts snap.scripts
    links := addMissingElements doc.links snap.links
    styles := addMissingElements doc.styles snap.styles
    scroll := (sx, sy) }

/-- The injected restoration script with its internal catch (lines
215-249): when the merge throws, fall through to restoring only the
scroll position; mergeFails models whether an exception is raised
during the merge. -/
def restoreScript (snap : ParsedSnapshot) (sx sy : Int)
    (mergeFails : Bool) (doc : DomDoc) : DomDoc :=
  if mergeFails then { doc with scroll := (sx, sy) }
  else restoreMerge snap sx sy doc

/-- The snapshot-presence test of the did-finish-load handler
(line 182): the stored innerHTML exists and is nonempty. -/
def hasContent (props : BrowserProps) : Bool :=
  match props.innerHTML with
  | none => false
  | some s => s.length > 0

/-- The did-finish-load restoration handler (lines 200-260). When a
snapshot is present the restoration script is submitted; a synchronous
submission failure (submitFails, the outer catch of lines 251-253)
leaves the document untouched. Without a snapshot only the scroll
position is restored, and only when it is nonzero (lines 254-259).
parse gives the DOMParser reading of the stored snapshot. -/
def didFinishLoadRestore (props : BrowserProps) (parse : String → ParsedSnapshot)
    (mergeFails submitFails : Bool) (doc : DomDoc) : DomDoc :=
  if hasContent props then
    if submitFails then doc
    else
      restoreScript (parse (props.innerHTML.getD "")) props.scrollX
        props.scrollY mergeFails doc
  else if props.scrollX != 0 || props.scrollY != 0 then
    { doc with scroll := (props.scrollX, props.scrollY) }
  else doc

end CanvasBrowser

namespace CanvasBrowser

/-! Interaction mode: the interaction blocker overlay (lines 543-581)
and its double-click handler, over the host editor selection and
editing state. -/

/-- The selection and editing state of the host editor consulted by the
component (getEditingShapeId, line 85). -/
structure EditorState where
  selectedIds : List String
  editingId : Option String
  deriving Repr, DecidableEq

/-- The mode test of the component (line 85): the shape is Interactive
exactly when it is the editing shape of the host editor. -/
def isEditingShape (st : EditorState) (sid : String) : Bool :=
  decide (st.editingId = some sid)

/-- Whether the event-capturing blocker layer is rendered (line 543):
it is present exactly when the shape is not being edited. -/
def interactionBlockerRendered (isEditing : Bool) : Bool :=
  !isEditing

/-- The possible receivers of a pointer, wheel or click event over the
content area. -/
inductive InputTarget where
  | blocker
  | surface
  deriving Repr, DecidableEq

/-- Event routing over the content area (lines 527-581): the blocker
div sits above the webview with pointerEvents all and zIndex 10, so
while it is rendered every pointer, wheel and click event lands on it
and never reaches the surface. -/
def pointerTarget (isEditing : Bool) : InputTarget :=
  if interactionBlockerRendered isEditing then InputTarget.blocker
  else InputTarget.surface

/-- The double-click handler of the blocker (lines 559-563): select the
shape and make it the editing shape. -/
def onBlockerDoubleClick (sid : String) (_st : EditorState) : EditorState :=
  { selectedIds := [sid], editingId := some sid }

end CanvasBrowser

namespace CanvasBrowser

/-! Temporal models: the edit-end capture (onEditEnd, lines 39-68), the
absence of an overlap guard in the scheduler, and the fate of a query
that resolves after unmount. -/

/-- The observable events around an Interactive to Passive transition:
the host finalizes the mode change, onEditEnd issues the capture query,
and the resolution of the query commits the captured state. -/
inductive SyncEvent where
  | modeFinalized
  | captureQueryIssued
  | captureCommit
  deriving Repr, DecidableEq

/-- The event trace of one edit-end transition (onEditEnd, lines
39-68). The host editor finalizes the mode change and then invokes
onEditEnd, which looks up the webview and issues the asynchronous
capture query; the commit inside the then-continuation can only run
after onEditEnd has returned, hence strictly after the mode change.
When the query rejects (queryFails) the catch logs and no commit
occurs; without a mounted webview no query is issued. -/
def onEditEndTrace (webviewPresent queryFails : Bool) : List SyncEvent :=
  if webviewPresent then
    if queryFails then
      [SyncEvent.modeFinalized, SyncEvent.captureQueryIssued]
    else
      [SyncEvent.modeFinalized, SyncEvent.captureQueryIssued,
        SyncEvent.captureCommit]
  else
    [SyncEvent.modeFinalized]

/-- Index of the first occurrence of an event in a trace. -/
def eventIdx (e : SyncEvent) : List SyncEvent → Option Nat
  | [] => none
  | x :: xs =>
    if x = e then some 0
    else (eventIdx e xs).map (· + 1)

/-- The ordering the exit-capture claim asserts: a capture commit occurs
and its position precedes or coincides with the mode finalization. -/
def commitPrecedesFinalize (tr : List SyncEvent) : Bool :=
  match eventIdx SyncEvent.captureCommit tr,
        eventIdx SyncEvent.modeFinalized tr with
  | some i, some j => i ≤ j
  | _, _ => false

/-- The ordering the code actually guarantees: whenever a capture commit
occurs, the mode finalization strictly precedes it. -/
def commitStrictlyAfterFinalize (tr : List SyncEvent) : Bool :=
  match eventIdx SyncEvent.captureCommit tr,
        eventIdx SyncEvent.modeFinalized tr with
  | some i, some j => j < i
  | none, _ => true
  | some _, none => false

/-- The scheduler actions affecting the number of in-flight state
queries of one surface: a timer tick and the resolution of one query. -/
inductive SchedAction where
  | tick
  | resolve
  deriving Repr, DecidableEq

/-- The in-flight count transition of the scheduler. saveWebviewState
(lines 306-340) opens with an unconditional executeJavaScript call —
the component keeps no in-flight flag and no tick is ever skipped — so
every tick adds one in-flight query; a resolution removes one. -/
def schedStep (n : Nat) : SchedAction → Nat
  | SchedAction.tick => n + 1
  | SchedAction.resolve => n - 1

/-- The number of in-flight queries after a sequence of scheduler
actions, starting from none. -/
def inFlightAfter (acts : List SchedAction) : Nat :=
  acts.foldl schedStep 0

/-- The resolution of a capture query that was in flight when the
component unmounted. The effect cleanup (lines 364-368) only clears
the interval timer; the then-continuation of the query (lines 315-339)
applies saveWebviewState without consulting whether the component is
still mounted, so the mounted flag is never read. -/
def lateResolve (_mounted : Bool) (props : BrowserProps)
    (s : CaptureSample) : Option BrowserProps :=
  saveWebviewState props s

/-! Concrete inputs used by the evaluation theorems and witnesses. -/

/-- A record that has scrolled and stored a snapshot, the starting
point of the navigation scenarios. -/
def propsA : BrowserProps :=
  { w := 400, h := 800, url := "https://a.example"
    scrollX := 5, scrollY := 7, innerHTML := some "<p>old</p>" }

/-- A freshly mounted record matching Scenario A of the spec. -/
def propsScenarioA : BrowserProps :=
  { w := 400, h := 800, url := "https://a.example"
    scrollX := 0, scrollY := 0, innerHTML := some "" }

/-- A capture sample in which the page has scrolled but not navigated. -/
def sampleScrolled : CaptureSample :=
  { scrollX := 0, scrollY := 120, html := "<p>x</p>"
    currentUrl := "https://www.google.com" }

/-- A capture sample on the Scenario A page after the user scrolled
deep into it, committed by the scheduler before an in-page navigation
event arrives. -/
def sampleScrolledA : CaptureSample :=
  { scrollX := 0, scrollY := 500, html := "<p>deep</p>"
    currentUrl := "https://a.example" }

/-- A small live document for the restoration scenarios. -/
def docLive : DomDoc :=
  { scripts := ["<script src=a.js></script>"], links := [], styles := []
    scroll := (0, 0) }

/-- A fixed DOMParser reading used to instantiate the restoration
theorems on concrete input. -/
def parseFixed : String → ParsedSnapshot := fun _ =>
  { scripts := ["<script src=b.js></script>"], links := [], styles := [] }

/-- An editor state in which no shape is being edited. -/
def stPassive : EditorState :=
  { selectedIds := [], editingId := none }

end CanvasBrowser

namespace CanvasBrowser

/-! Scheduler lemmas. -/

/-- A tick commits a write exactly when the delta test fires. -/
theorem saveWebviewState_isSome (props : BrowserProps) (s : CaptureSample) :
    (saveWebviewState props s).isSome = needsUpdate props s := by
  unfold saveWebviewState
  cases h : needsUpdate props s <;> simp [h]

/-- C1: evaluation at the failing input. The interval callback closes
over the mount-render shape, so every tick compares the sample against
the frozen mount-time props rather than the record as currently stored.
Two ticks returning the identical scrolled sample therefore commit two
writes, and the second write fires although the sampled values no
longer differ from the record as stored after the first commit —
against the claimed commit-iff-differs-from-stored-record behavior and
the claimed at-most-one-write bound for identical samples. -/
theorem c1_stale_baseline_divergence :
    (runTicksStale getDefaultProps getDefaultProps
        (List.replicate 2 sampleScrolled)).2 = 2
    ∧ (saveWebviewState getDefaultProps sampleScrolled).map
        (fun rec1 => needsUpdate rec1 sampleScrolled) = some false := by
  refine ⟨by decide, by decide⟩

/-- C2: evaluation of the two navigation-commit paths at the failing
input. A did-navigate event to a new origin on a scrolled record with a
stored snapshot commits only the new url — the scroll offset stays at
(5, 7) and the snapshot is preserved — and a url-bar submit, while it
does reset the scroll offset, also preserves the snapshot; the claim
requires scroll reset to (0, 0) and a cleared snapshot on both paths. -/
theorem c2_navigation_divergence :
    (didNavigate propsA "https://b.example").map
        (fun p => (p.url, p.scrollX, p.scrollY, p.innerHTML)) =
      some ("https://b.example", 5, 7, some "<p>old</p>")
    ∧ (handleUrlSubmit propsA "https://b.example").scrollX = 0
    ∧ (handleUrlSubmit propsA "https://b.example").scrollY = 0
    ∧ (handleUrlSubmit propsA "https://b.example").innerHTML =
        some "<p>old</p>" := by
  refine ⟨?_, ?_, ?_, ?_⟩ <;> decide

/-! Url normalization lemmas. -/

/-- A character list is a prefix of itself followed by anything. -/
theorem startsWithChars_append (p rest : List Char) :
    startsWithChars p (p ++ rest) = true := by
  induction p with
  | nil => rfl
  | cons c cs ih => simp [startsWithChars, ih]

/-- Prepending the https scheme yields a string that passes the scheme
test of handleUrlSubmit. -/
theorem hasHttpScheme_prepend (u : String) :
    hasHttpScheme ("https://" ++ u) = true := by
  unfold hasHttpScheme
  apply Bool.or_eq_true_iff.mpr
  right
  have hdata : ("https://" ++ u).toList = "https://".toList ++ u.toList := by
    simp [String.toList]
  rw [hdata, List.map_append]
  have hlow : "https://".toList.map Char.toLower = "https://".toList := by
    decide
  rw [hlow]
  exact startsWithChars_append _ _

/-- The committed url of a url-bar submit always carries a scheme. -/
theorem hasHttpScheme_normalizeUrl (u : String) :
    hasHttpScheme (normalizeUrl u) = true := by
  unfold normalizeUrl
  cases h : hasHttpScheme u with
  | true => simpa using h
  | false => simp [hasHttpScheme_prepend]

/-- C10: for every submitted url string, when the string does not begin
with http:// or https:// (case-insensitively) the https scheme is
prepended before the record is updated, otherwise the string is
committed unchanged; in both cases the committed url passes the
case-insensitive http or https scheme test. -/
theorem c10_url_normalization (props : BrowserProps) (u : String) :
    (hasHttpScheme u = false →
      (handleUrlSubmit props u).url = "https://" ++ u)
    ∧ (hasHttpScheme u = true → (handleUrlSubmit props u).url = u)
    ∧ hasHttpScheme (handleUrlSubmit props u).url = true := by
  refine ⟨?_, ?_, ?_⟩
  · intro h
    simp [handleUrlSubmit, normalizeUrl, h]
  · intro h
    simp [handleUrlSubmit, normalizeUrl, h]
  · show hasHttpScheme (normalizeUrl u) = true
    exact hasHttpScheme_normalizeUrl u

/-- Witness for C10: a bare host gets the https scheme prepended, an
upper-case scheme is kept unchanged, and both committed urls pass the
scheme test. -/
theorem c10_url_normalization_witness :
    hasHttpScheme "www.example.com" = false
    ∧ (handleUrlSubmit getDefaultProps "www.example.com").url =
        "https://" ++ "www.example.com"
    ∧ hasHttpScheme
        (handleUrlSubmit getDefaultProps "www.example.com").url = true
    ∧ hasHttpScheme "HTTP://EXAMPLE.COM" = true
    ∧ (handleUrlSubmit getDefaultProps "HTTP://EXAMPLE.COM").url =
        "HTTP://EXAMPLE.COM" := by
  refine ⟨by decide, ?_, ?_, by decide, ?_⟩
  · exact (c10_url_normalization getDefaultProps "www.example.com").1
      (by decide)
  · exact (c10_url_normalization getDefaultProps "www.example.com").2.2
  · exact (c10_url_normalization getDefaultProps "HTTP://EXAMPLE.COM").2.1
      (by decide)

/-! Edit-end capture ordering. -/

/-- Counterexample to C3 as stated: on the successful edit-end trace the
capture commit does not precede or coincide with the finalization of
the mode change. -/
theorem c3_commit_not_before_finalize :
    commitPrecedesFinalize (onEditEndTrace true false) = false := by
  decide

/-- C3 amended: on every Interactive to Passive transition the capture
query is issued immediately at the transition, outside the scheduler
interval, but the commit of its result resolves asynchronously and lands
strictly after the mode change is finalized. -/
theorem c3_exit_capture_amended :
    ∀ (w q : Bool),
      commitStrictlyAfterFinalize (onEditEndTrace w q) = true
      ∧ (w = true →
          eventIdx SyncEvent.captureQueryIssued (onEditEndTrace w q) =
            some 1) := by
  decide

/-- Witness for C3 amended on the successful trace of a mounted
webview. -/
theorem c3_exit_capture_amended_witness :
    commitStrictlyAfterFinalize (onEditEndTrace true false) = true
    ∧ eventIdx SyncEvent.captureQueryIssued (onEditEndTrace true false) =
        some 1 :=
  ⟨(c3_exit_capture_amended true false).1,
    (c3_exit_capture_amended true false).2 rfl⟩

/-! Scheduler overlap. -/

/-- Helper: folding the in-flight transition over a run of ticks adds
one query per tick. -/
theorem foldl_schedStep_ticks (n : Nat) :
    ∀ m, List.foldl schedStep m (List.replicate n SchedAction.tick) =
      m + n := by
  induction n with
  | zero => intro m; simp
  | succ k ih =>
    intro m
    rw [List.replicate_succ]
    show List.foldl schedStep (schedStep m SchedAction.tick)
      (List.replicate k SchedAction.tick) = m + (k + 1)
    rw [ih]
    simp [schedStep]
    omega

/-- Counterexample to C4 as stated: two ticks with no intervening
resolution leave two queries in flight, and a tick arriving with one
query pending still issues a new query instead of being skipped. -/
theorem c4_overlap_counterexample :
    inFlightAfter [SchedAction.tick, SchedAction.tick] = 2
    ∧ schedStep 1 SchedAction.tick ≠ 1 := by
  refine ⟨by decide, by decide⟩

/-- C4 amended: saveWebviewState issues its state query unconditionally,
so every tick adds one in-flight query regardless of how many are
pending, and after n consecutive unresolved ticks n queries are in
flight for the same surface. -/
theorem c4_scheduler_amended (n : Nat) :
    schedStep n SchedAction.tick = n + 1
    ∧ inFlightAfter (List.replicate n SchedAction.tick) = n := by
  constructor
  · rfl
  · show List.foldl schedStep 0 (List.replicate n SchedAction.tick) = n
    rw [foldl_schedStep_ticks]
    omega

/-! Late resolution after unmount. -/

/-- Counterexample to C5 as stated: a query in flight when the component
unmounts still commits its write on resolution — the mounted flag is
false and yet the late result is applied, not discarded. -/
theorem c5_late_write_counterexample :
    (lateResolve false getDefaultProps sampleScrolled).isSome = true := by
  decide

/-- C5 amended: the unmount cleanup only clears the interval timer; the
resolution handler of an in-flight query never consults mounted-ness, so
it behaves exactly like a normal resolved tick and commits a write
whenever the delta test fires, mounted or not. -/
theorem c5_late_write_amended (m : Bool) (props : BrowserProps)
    (s : CaptureSample) :
    lateResolve m props s = saveWebviewState props s
    ∧ (lateResolve m props s).isSome = needsUpdate props s := by
  exact ⟨rfl, saveWebviewState_isSome props s⟩

/-! Restoration lemmas. -/

/-- Every stored element appears in the merged document, whether it was
already present or has just been inserted. -/
theorem mem_addMissingElements_of_mem_stored (c s : List String) :
    ∀ a ∈ s, a ∈ addMissingElements c s := by
  intro a ha
  by_cases hc : a ∈ c
  · exact List.mem_append.mpr (Or.inl hc)
  · exact List.mem_append.mpr
      (Or.inr (List.mem_filter.mpr ⟨ha, by simp [hc]⟩))

/-- Merging the same stored elements a second time inserts nothing. -/
theorem addMissingElements_idem (c s : List String) :
    addMissingElements (addMissingElements c s) s =
      addMissingElements c s := by
  have h : List.filter
      (fun x => !(decide (x ∈ addMissingElements c s))) s = [] := by
    rw [List.filter_eq_nil_iff]
    intro a ha
    simp [mem_addMissingElements_of_mem_stored c s a ha]
  calc addMissingElements (addMissingElements c s) s
      = addMissingElements c s ++
        List.filter (fun x => !(decide (x ∈ addMissingElements c s))) s :=
        rfl
    _ = addMissingElements c s ++ [] := by rw [h]
    _ = addMissingElements c s := List.append_nil _

/-- C6: the restoration merge is idempotent — running the injected
restoration script twice with the same parsed snapshot, on either its
successful path or its internal fallback path, yields exactly the same
document (and hence the same element set) as running it once, because a
stored head-level element is inserted only when no element with an
exactly equal serialized form is already present. -/
theorem c6_restore_idempotent (snap : ParsedSnapshot) (sx sy : Int)
    (mf : Bool) (doc : DomDoc) :
    restoreScript snap sx sy mf (restoreScript snap sx sy mf doc) =
      restoreScript snap sx sy mf doc := by
  cases mf with
  | true => rfl
  | false =>
    show restoreMerge snap sx sy (restoreMerge snap sx sy doc) =
      restoreMerge snap sx sy doc
    unfold restoreMerge
    simp [addMissingElements_idem]

/-- C7: restoration is failure-isolated and two-tier. With no stored
snapshot only the scroll offset is restored (the head-level element
lists are untouched); when the merge of a present snapshot raises, the
script falls through to scroll-only restoration; on every path where
the restoration script runs, the scroll restoration is applied as the
final step so the resulting scroll equals the stored offset; and when
even submitting the script fails, the outer catch leaves the document
untouched instead of propagating the exception — didFinishLoadRestore
is a total function on all failure combinations. -/
theorem c7_restore_degradation (props : BrowserProps)
    (parse : String → ParsedSnapshot) (mf sf : Bool) (doc : DomDoc) :
    (hasContent props = false →
      ((didFinishLoadRestore props parse mf sf doc).scripts = doc.scripts
        ∧ (didFinishLoadRestore props parse mf sf doc).links = doc.links
        ∧ (didFinishLoadRestore props parse mf sf doc).styles = doc.styles))
    ∧ (hasContent props = true → sf = false → mf = true →
        didFinishLoadRestore props parse mf sf doc =
          { doc with scroll := (props.scrollX, props.scrollY) })
    ∧ (hasContent props = true → sf = false →
        (didFinishLoadRestore props parse mf sf doc).scroll =
          (props.scrollX, props.scrollY))
    ∧ (hasContent props = true → sf = true →
        didFinishLoadRestore props parse mf sf doc = doc) := by
  refine ⟨?_, ?_, ?_, ?_⟩
  · intro hc
    unfold didFinishLoadRestore
    rw [hc]
    simp only [Bool.false_eq_true, if_false]
    split <;> simp
  · intro hc hsf hmf
    subst hsf; subst hmf
    unfold didFinishLoadRestore
    rw [hc]
    simp [restoreScript]
  · intro hc hsf
    subst hsf
    unfold didFinishLoadRestore
    rw [hc]
    cases mf with
    | true => simp [restoreScript]
    | false => simp [restoreScript, restoreMerge]
  · intro hc hsf
    subst hsf
    unfold didFinishLoadRestore
    rw [hc]
    simp

/-- Witness for C7 at concrete input: the record propsA carries a
snapshot, and a failing merge on the live document degrades to
restoring only the stored scroll offset (5, 7). -/
theorem c7_restore_degradation_witness :
    hasContent propsA = true
    ∧ didFinishLoadRestore propsA parseFixed true false docLive =
        { docLive with scroll := (5, 7) }
    ∧ (didFinishLoadRestore propsA parseFixed true false docLive).scroll =
        (5, 7) := by
  have h := c7_restore_degradation propsA parseFixed true false docLive
  refine ⟨by decide, h.2.1 (by decide) rfl rfl, ?_⟩
  have hs := h.2.2.1 (by decide) rfl
  simpa [propsA] using hs

/-! In-page navigation. -/

/-- C8: evaluation at the failing input. The shape mounts with the
Scenario A record; a scheduler tick then commits the scrolled sample,
so the stored record carries scrollY 500 and a fresh snapshot. When the
in-page navigation to the section anchor fires, the listener spreads
the frozen mount-time props into its update: the committed record has
the new url but scrollY 0 and the empty mount snapshot, overwriting the
intervening commit — against the claim that scrollX, scrollY and the
stored snapshot are left unchanged until the next scheduled capture. -/
theorem c8_stale_spread_divergence :
    (saveWebviewState propsScenarioA sampleScrolledA).map
        (fun rec1 => (rec1.scrollY, rec1.innerHTML)) =
      some (500, some "<p>deep</p>")
    ∧ (didNavigateInPage propsScenarioA "https://a.example#section2").map
        (fun p => (p.url, p.scrollX, p.scrollY, p.innerHTML)) =
      some ("https://a.example#section2", 0, 0, some "") := by
  refine ⟨by decide, by decide⟩

/-! Interaction mode. -/

/-- C9: the event-capturing blocker layer is rendered exactly when the
shape is not the editing shape, pointer, wheel and click events land on
the blocker and never on the surface while it is rendered, and the
double-click gesture on the blocker both selects the shape and makes it
the editing shape of the host editor. -/
theorem c9_interaction_mode (st : EditorState) (sid : String) :
    (pointerTarget (isEditingShape st sid) = InputTarget.surface ↔
      isEditingShape st sid = true)
    ∧ pointerTarget false = InputTarget.blocker
    ∧ interactionBlockerRendered (isEditingShape st sid) =
        !(isEditingShape st sid)
    ∧ isEditingShape (onBlockerDoubleClick sid st) sid = true
    ∧ (onBlockerDoubleClick sid st).selectedIds = [sid] := by
  refine ⟨?_, rfl, rfl, ?_, rfl⟩
  · cases h : isEditingShape st sid <;>
      simp [pointerTarget, interactionBlockerRendered, h]
  · simp [isEditingShape, onBlockerDoubleClick]

/-- Witness for C9: in a passive editor state the blocker is rendered
and receives the pointer events, and a double-click on it transitions
the shape to the editing (Interactive) shape while selecting it. -/
theorem c9_interaction_mode_witness :
    interactionBlockerRendered (isEditingShape stPassive "browser:1") = true
    ∧ pointerTarget (isEditingShape stPassive "browser:1") =
        InputTarget.blocker
    ∧ isEditingShape (onBlockerDoubleClick "browser:1" stPassive)
        "browser:1" = true
    ∧ (onBlockerDoubleClick "browser:1" stPassive).selectedIds =
        ["browser:1"] := by
  have h := c9_interaction_mode stPassive "browser:1"
  exact ⟨by decide, h.2.1, h.2.2.2.1, h.2.2.2.2⟩

end CanvasBrowser
